import Mathlib

/-!
Verification of the TomatoNews daily pipeline core: the feed loader's
date-resolution and content-extraction logic (`scripts/rss_fetcher.py`),
the archive-log merge of the report builder (`scripts/html_generator.py`),
and the orchestrator's three-way outcome classification (`scripts/main.py`
together with `scripts/llm_analyzer.py`).

The Python code is shallowly embedded: feedparser entries become a
structure of optional fields (`none` models an absent attribute / dict
key), exceptions become `Except String`, and the I/O boundaries (HTTP
fetch, LLM call, SMTP, file writes) become explicit parameters or are
recorded in an effect trace.
-/

/-- One element of a feedparser `entry.content` list; `value` is the
optional `value` key read by `content[0].get('value', '')`. -/
structure ContentItem where
  value : Option String
deriving DecidableEq

/-- The first six components of feedparser's `published_parsed`
struct_time, as consumed by `datetime(*item.published_parsed[:6])`. -/
structure PubTime where
  year : Nat
  month : Nat
  day : Nat
  hour : Nat
  minute : Nat
  second : Nat
deriving DecidableEq

/-- A feed entry as delivered by feedparser.  `none` models an absent
attribute (`hasattr` false / dict key missing); `content = []` also covers
the falsy empty `content` list. -/
structure FeedEntry where
  title : Option String := none
  link : Option String := none
  id : Option String := none
  guid : Option String := none
  description : Option String := none
  summary : Option String := none
  content : List ContentItem := []
  published : Option String := none
  updated : Option String := none
  published_parsed : Option PubTime := none
deriving DecidableEq

/-- The canonical content record built by `NewsLoader._format_item`. -/
structure CanonRecord where
  title : String
  link : String
  guid : String
  description : String
  content : String
  pubDate : String
deriving DecidableEq

/-- A calendar date, the result of `datetime.strptime(s, "%Y-%m-%d")`
restricted to its date part. -/
structure YMD where
  y : Nat
  m : Nat
  d : Nat
deriving DecidableEq

/-- Drops the literal `pat` from the front of `cs`, returning the rest,
or `none` if `cs` does not start with `pat`. -/
def dropLit : List Char → List Char → Option (List Char)
  | [], cs => some cs
  | _ :: _, [] => none
  | p :: ps, c :: cs => if c = p then dropLit ps cs else none

/-- Fuel-driven worker for `replaceAll`; the fuel starts at the length of
the list, which bounds the number of steps. -/
def replaceAllAux (pat rep : List Char) : Nat → List Char → List Char
  | 0, cs => cs
  | _ + 1, [] => []
  | fuel + 1, c :: cs =>
    match dropLit pat (c :: cs) with
    | some rest => rep ++ replaceAllAux pat rep fuel rest
    | none => c :: replaceAllAux pat rep fuel cs

/-- Replaces every non-overlapping occurrence of `pat` by `rep`, scanning
left to right, exactly like Python's `str.replace` for a non-empty
pattern. -/
def replaceAll (pat rep cs : List Char) : List Char :=
  replaceAllAux pat rep cs.length cs

/-- The entity unescape of `_format_item` line 120:
`.replace('&lt;','<').replace('&gt;','>').replace('&amp;','&')`, three
sequential single passes in that fixed order. -/
def unescape3 (s : String) : String :=
  String.mk (replaceAll "&amp;".toList "&".toList
    (replaceAll "&gt;".toList ">".toList
      (replaceAll "&lt;".toList "<".toList s.toList)))

/-- Consumes exactly `n` ASCII digits from the front of `cs` (the regex
`\d{n}`), returning them and the rest. -/
def takeDigits : Nat → List Char → Option (List Char × List Char)
  | 0, cs => some ([], cs)
  | _ + 1, [] => none
  | n + 1, c :: cs =>
    if c.isDigit then
      match takeDigits n cs with
      | some (ds, rest) => some (c :: ds, rest)
      | none => none
    else none

/-- Consumes a literal hyphen. -/
def expectDash : List Char → Option (List Char)
  | '-' :: rest => some rest
  | _ => none

/-- Matches the tail of `NewsLoader._parse_url_date`'s regex right after
the literal `/issues/`: `(\d{yLen})-(\d{2})-(\d{2})-`, returning the three
captured groups. -/
def matchIssuesPat (yLen : Nat) (cs : List Char) : Option (String × String × String) :=
  match takeDigits yLen cs with
  | none => none
  | some (y, r1) =>
    match expectDash r1 with
    | none => none
    | some r2 =>
      match takeDigits 2 r2 with
      | none => none
      | some (m, r3) =>
        match expectDash r3 with
        | none => none
        | some r4 =>
          match takeDigits 2 r4 with
          | none => none
          | some (d, r5) =>
            match expectDash r5 with
            | none => none
            | some _ => some (String.mk y, String.mk m, String.mk d)

/-- `re.search` for the pattern `/issues/(\d{yLen})-(\d{2})-(\d{2})-`:
scans for the leftmost position where the whole pattern matches. -/
def searchIssues (yLen : Nat) : List Char → Option (String × String × String)
  | [] => none
  | c :: rest =>
    match dropLit "/issues/".toList (c :: rest) with
    | some after =>
      match matchIssuesPat yLen after with
      | some g => some g
      | none => searchIssues yLen rest
    | none => searchIssues yLen rest

/-- `NewsLoader._parse_url_date`: tries the two-digit-year pattern first,
then the four-digit one, expanding a two-digit year `YY` to `20YY`. -/
def parse_url_date (url : String) : Option String :=
  match searchIssues 2 url.toList with
  | some (y, m, d) =>
    some ((if y.length = 2 then "20" ++ y else y) ++ "-" ++ m ++ "-" ++ d)
  | none =>
    match searchIssues 4 url.toList with
    | some (y, m, d) =>
      some ((if y.length = 2 then "20" ++ y else y) ++ "-" ++ m ++ "-" ++ d)
    | none => none

/-- `NewsLoader._format_item`: builds the canonical record, with the
content fallback chain (structured content body, else summary, else
description) followed by the three-entity unescape, and with the
identifier fallback `id` → `guid` → `link` → `""` via nested
`dict.get`. -/
def format_item (e : FeedEntry) : CanonRecord :=
  let description := e.description.getD ""
  let base :=
    match e.content with
    | c :: _ => c.value.getD ""
    | [] =>
      match e.summary with
      | some s => s
      | none => description
  { title := e.title.getD ""
    link := e.link.getD ""
    guid :=
      match e.id with
      | some v => v
      | none =>
        match e.guid with
        | some v => v
        | none => e.link.getD ""
    description := description
    content := unescape3 base
    pubDate :=
      match e.published with
      | some v => v
      | none => e.updated.getD "" }

/-- `NewsLoader._compare_dates` on the UTC datetimes built in
`fetch_by_day`: both are compared by calendar date only. -/
def same_day (p : PubTime) (td : YMD) : Bool :=
  p.year = td.y && p.month = td.m && p.day = td.d

/-- An entry satisfies the timestamp rule of the `fetch_by_day` loop. -/
def ts_match (td : YMD) (e : FeedEntry) : Bool :=
  match e.published_parsed with
  | some p => same_day p td
  | none => false

/-- An entry satisfies the URL-date rule of the `fetch_by_day` loop
(string comparison of the extracted date against the raw argument). -/
def url_match (date_str : String) (e : FeedEntry) : Bool :=
  match e.link with
  | some l => decide (parse_url_date l = some date_str)
  | none => false

/-- An entry satisfies either rule, timestamp first. -/
def entry_matches (td : YMD) (date_str : String) (e : FeedEntry) : Bool :=
  ts_match td e || url_match date_str e

/-- The scan loop of `NewsLoader.fetch_by_day`: first entry in feed order
whose timestamp date equals the target, or whose link encodes the target
date, wins; the timestamp test runs before the URL test on each entry. -/
def locateEntry (td : YMD) (date_str : String) : List FeedEntry → Option CanonRecord
  | [] => none
  | e :: rest =>
    if ts_match td e then some (format_item e)
    else if url_match date_str e then some (format_item e)
    else locateEntry td date_str rest

/-- Month token of CPython strptime's `%m`: `(1[0-2]|0[1-9]|[1-9])`, the
alternatives tried in that order. -/
def parseMonthTok : List Char → Option (Nat × List Char)
  | c1 :: c2 :: rest =>
    if c1 = '1' ∧ (c2 = '0' ∨ c2 = '1' ∨ c2 = '2') then
      some (10 + (c2.toNat - 48), rest)
    else if c1 = '0' ∧ c2.isDigit ∧ c2 ≠ '0' then
      some (c2.toNat - 48, rest)
    else if c1.isDigit ∧ c1 ≠ '0' then
      some (c1.toNat - 48, c2 :: rest)
    else none
  | [c1] =>
    if c1.isDigit ∧ c1 ≠ '0' then some (c1.toNat - 48, []) else none
  | [] => none

/-- Day token of CPython strptime's `%d`: `(3[01]|[12]\d|0[1-9]|[1-9])`. -/
def parseDayTok : List Char → Option (Nat × List Char)
  | c1 :: c2 :: rest =>
    if c1 = '3' ∧ (c2 = '0' ∨ c2 = '1') then
      some (30 + (c2.toNat - 48), rest)
    else if (c1 = '1' ∨ c1 = '2') ∧ c2.isDigit then
      some ((c1.toNat - 48) * 10 + (c2.toNat - 48), rest)
    else if c1 = '0' ∧ c2.isDigit ∧ c2 ≠ '0' then
      some (c2.toNat - 48, rest)
    else if c1.isDigit ∧ c1 ≠ '0' then
      some (c1.toNat - 48, c2 :: rest)
    else none
  | [c1] =>
    if c1.isDigit ∧ c1 ≠ '0' then some (c1.toNat - 48, []) else none
  | [] => none

/-- Day count per month, as enforced by the `datetime` constructor. -/
def daysInMonth (y m : Nat) : Nat :=
  if m = 2 then
    (if y % 4 = 0 ∧ (y % 100 ≠ 0 ∨ y % 400 = 0) then 29 else 28)
  else if m = 4 ∨ m = 6 ∨ m = 9 ∨ m = 11 then 30
  else 31

/-- `datetime.strptime(s, "%Y-%m-%d")` restricted to its date: exactly
four digits for `%Y`, the `%m`/`%d` tokens above, full consumption of the
string, and the `datetime` range checks (year at least 1, day within the
month). `none` models the `ValueError`. -/
def strptimeDate (s : String) : Option YMD :=
  match s.toList with
  | a :: b :: c :: d :: rest =>
    if a.isDigit ∧ b.isDigit ∧ c.isDigit ∧ d.isDigit then
      match rest with
      | '-' :: r1 =>
        match parseMonthTok r1 with
        | some (m, r2) =>
          match r2 with
          | '-' :: r3 =>
            match parseDayTok r3 with
            | some (dd, []) =>
              let yv := (a.toNat - 48) * 1000 + (b.toNat - 48) * 100 +
                (c.toNat - 48) * 10 + (d.toNat - 48)
              if 1 ≤ yv ∧ dd ≤ daysInMonth yv m then some ⟨yv, m, dd⟩ else none
            | _ => none
          | _ => none
        | none => none
      | _ => none
    else none
  | _ => none

/-- `NewsLoader.fetch_by_day` on an already pulled snapshot: the strptime
`ValueError` (raised before the scan) becomes `Except.error` with the
source's message; otherwise the scan result is returned (`none` for the
"no matching content" case). -/
def fetch_by_day (date_str : String) (entries : List FeedEntry) :
    Except String (Option CanonRecord) :=
  match strptimeDate date_str with
  | none => Except.error ("Date format mismatch: " ++ date_str ++ " (use YYYY-MM-DD)")
  | some td => Except.ok (locateEntry td date_str entries)

/-- Two-digit zero padding of strftime. -/
def pad2 (n : Nat) : String :=
  if n < 10 then "0" ++ toString n else toString n

/-- Four-digit zero padding of strftime's `%Y`. -/
def pad4 (n : Nat) : String :=
  if n < 10 then "000" ++ toString n
  else if n < 100 then "00" ++ toString n
  else if n < 1000 then "0" ++ toString n
  else toString n

/-- `ts.strftime("%Y-%m-%d")`. -/
def fmtYMD (y m d : Nat) : String :=
  pad4 y ++ "-" ++ pad2 m ++ "-" ++ pad2 d

/-- The URL date of an entry: `hasattr(item, 'link')` guarding
`_parse_url_date(item.link)`. -/
def url_date_of (e : FeedEntry) : Option String :=
  match e.link with
  | some l => parse_url_date l
  | none => none

/-- `NewsLoader.get_latest_timestamp` on an already pulled snapshot: only
the first entry is examined; its URL date wins over its parsed
timestamp. -/
def get_latest_timestamp (entries : List FeedEntry) : Option String :=
  match entries with
  | [] => none
  | top :: _ =>
    match url_date_of top with
    | some d => some d
    | none =>
      match top.published_parsed with
      | some p => some (fmtYMD p.year p.month p.day)
      | none => none

instance {α β : Type} [DecidableEq α] [DecidableEq β] : DecidableEq (Except α β) :=
  fun x y =>
    match x, y with
    | Except.error a, Except.error b =>
      if h : a = b then isTrue (by rw [h]) else isFalse (fun hc => h (Except.error.inj hc))
    | Except.ok a, Except.ok b =>
      if h : a = b then isTrue (by rw [h]) else isFalse (fun hc => h (Except.ok.inj hc))
    | Except.error _, Except.ok _ => isFalse (fun hc => Except.noConfusion hc)
    | Except.ok _, Except.error _ => isFalse (fun hc => Except.noConfusion hc)

/-- One item of a classification category. -/
structure NewsItem where
  title : String := ""
  summary : String := ""
  url : Option String := none
  tags : List String := []
deriving DecidableEq

/-- One category of the oracle's classification. -/
structure Category where
  key : String := ""
  name : String := ""
  icon : String := ""
  items : List NewsItem := []
deriving DecidableEq

/-- The oracle's classification dict as consumed by `main.py` and
`html_generator.py`.  Optional fields model possibly-absent dict keys
(`summary`, `date`, `lang`, `language`, `reason`); after
`_decode_ai_output`'s `setdefault` injection they are always present, but
`PageBuilder` is specified against arbitrary dicts. -/
structure Classification where
  status : String := "success"
  date : Option String := none
  lang : Option String := none
  language : Option String := none
  theme : String := "blue"
  summary : Option (List String) := none
  keywords : List String := []
  categories : List Category := []
  reason : Option String := none
deriving DecidableEq

/-- One record of the `.index.json` archive log maintained by
`PageBuilder.sync_index`. -/
structure LogEntry where
  date : String
  url : String
  summary : String
  lang : String
  ts : String
deriving DecidableEq

/-- Python's `s[:n]`: the first `n` characters. -/
def truncate (n : Nat) (s : String) : String :=
  String.mk (s.toList.take n)

/-- Python's `a or b` chain for optional strings: an absent key and an
empty string are both falsy. -/
def orFalsy (a : Option String) (b : String) : String :=
  match a with
  | some s => if s = "" then b else s
  | none => b

/-- `data.get("summary", [""])[0]` in `PageBuilder.sync_index`: reading
the first highlight raises `IndexError` exactly when the `summary` key is
present and maps to an empty list. -/
def firstSummary (data : Classification) : Except String String :=
  match data.summary.getD [""] with
  | [] => Except.error "IndexError: list index out of range"
  | s :: _ => Except.ok s

/-- The `entry` dict built in `PageBuilder.sync_index`, with the summary
already truncated to 120 characters. -/
def mkLogEntry (day s lang nowTs : String) : LogEntry :=
  { date := day
    url := day ++ "-" ++ lang ++ ".html"
    summary := truncate 120 s
    lang := lang
    ts := nowTs }

/-- The archive-log merge of `PageBuilder.sync_index` (the file writes and
the HTML rebuild are side effects outside this model; `nowTs` stands for
`datetime.now().isoformat()`): drop prior entries with the same date,
insert the new entry (summary truncated to 120 characters) at the front,
cap at 50 entries. -/
def sync_index (day : String) (data : Classification) (lang nowTs : String)
    (log : List LogEntry) : Except String (List LogEntry) :=
  match firstSummary data with
  | Except.error e => Except.error e
  | Except.ok s =>
    Except.ok ((mkLogEntry day s lang nowTs ::
      log.filter (fun e => e.date ≠ day)).take 50)

/-- `PageBuilder.build_daily` at the granularity of the claims: resolves
day and language exactly as the source (`data.get("date", now)`, then the
falsy-or chain `lang or language or "zh"`), runs `sync_index`, and
returns the report file name together with the new log.  The HTML
assembly and the file write (which happens before `sync_index` in the
source) are rendering effects outside this model; an exception escaping
`sync_index` propagates out of `build_daily`. -/
def build_daily (data : Classification) (nowDate nowTs : String)
    (log : List LogEntry) : Except String (String × List LogEntry) :=
  let day := data.date.getD nowDate
  let lang := orFalsy data.lang (orFalsy data.language "zh")
  match sync_index day data lang nowTs log with
  | Except.error e => Except.error e
  | Except.ok log2 => Except.ok (day ++ "-" ++ lang ++ ".html", log2)

/-- `ContentProcessor._generate_empty_state`. -/
def empty_state (date msg lang : String) : Classification :=
  { status := "empty"
    date := some date
    lang := some lang
    theme := "blue"
    summary := some []
    keywords := []
    categories := []
    reason := some msg }

/-- `ContentProcessor._create_emergency_fallback` on a canonical
record. -/
def emergency_fallback (raw : CanonRecord) (date : String) : Classification :=
  { status := "success"
    date := some date
    theme := "blue"
    summary := some ["System encountered a processing error. Displaying raw data."]
    keywords := ["Error"]
    categories := [
      { key := "model"
        name := "General"
        icon := "🤖"
        items := [
          { title := raw.title
            summary := "Unable to analyze content."
            url := some raw.link
            tags := ["System"] }] }]
    lang := some "en" }

/-- `ContentProcessor.process_news`, with the LLM HTTP call and the JSON
decode abstracted into `oracleRes`: `Except.error` models an exception
raised by the API call (e.g. a timeout), `Except.ok c` a successfully
decoded classification after default injection.  An empty or missing
content body short-circuits to the empty state; an oracle exception is
caught and replaced by the emergency fallback. -/
def process_news (raw : Option CanonRecord)
    (oracleRes : Except String Classification) (date lang : String) :
    Classification :=
  match raw with
  | none => empty_state date "No content provided" lang
  | some r =>
    if r.content = "" then empty_state date "No content provided" lang
    else
      match oracleRes with
      | Except.error _ => emergency_fallback r date
      | Except.ok c => c

/-- The three terminal states of one pipeline run. -/
inductive Outcome
  | published : String → Nat → Outcome
  | emptyO : String → String → Outcome
  | failed : String → String → Outcome
deriving DecidableEq

/-- Completed externally visible steps of one run, in execution order. -/
inductive Stage
  | fetchFeed
  | writeStyles
  | buildEmptyPage
  | buildDailyPage
  | exportPdf
  | notifyEmptyMail
  | notifySuccessMail
  | notifyFailureMail
deriving DecidableEq

/-- The observable result of one `run_pipeline` invocation: the terminal
outcome, the process exit code, and the trace of completed steps. -/
structure RunResult where
  outcome : Outcome
  exitCode : Nat
  trace : List Stage
deriving DecidableEq

/-- The environment of one run: the resolved target day and language, the
results the external collaborators would deliver, the notification-sink
readiness (`AlertManager._is_ready`), whether the browser export
succeeds, the current date/timestamp, and the archive log on disk. -/
structure PipelineEnv where
  dateArg : String
  language : String
  fetchResult : Except String (List FeedEntry)
  oracleResult : Except String Classification
  alertsReady : Bool
  exportOk : Bool
  nowDate : String
  nowTs : String
  log : List LogEntry

/-- `main.run_pipeline` after argument resolution: fetch, locate, analyze,
build, export, notify, with the generic `except` handler mapping any
uncaught exception to the failure exit (`sys.exit(1)`), the two empty
branches returning normally (exit code 0), and the export failure
swallowed. -/
def run_pipeline (env : PipelineEnv) : RunResult :=
  match env.fetchResult with
  | Except.error e =>
    { outcome := Outcome.failed env.dateArg e
      exitCode := 1
      trace := if env.alertsReady then [Stage.notifyFailureMail] else [] }
  | Except.ok feed =>
    match fetch_by_day env.dateArg feed with
    | Except.error e =>
      { outcome := Outcome.failed env.dateArg e
        exitCode := 1
        trace := Stage.fetchFeed ::
          (if env.alertsReady then [Stage.notifyFailureMail] else []) }
    | Except.ok none =>
      { outcome := Outcome.emptyO env.dateArg "RSS feed returned no entries for this date."
        exitCode := 0
        trace := Stage.fetchFeed :: Stage.writeStyles :: Stage.buildEmptyPage ::
          (if env.alertsReady then [Stage.notifyEmptyMail] else []) }
    | Except.ok (some raw) =>
      let report := process_news (some raw) env.oracleResult env.dateArg env.language
      if report.status = "empty" then
        { outcome := Outcome.emptyO env.dateArg (report.reason.getD "AI analysis empty")
          exitCode := 0
          trace := Stage.fetchFeed ::
            (if env.alertsReady then [Stage.notifyEmptyMail] else []) }
      else
        match build_daily report env.nowDate env.nowTs env.log with
        | Except.error e =>
          { outcome := Outcome.failed env.dateArg e
            exitCode := 1
            trace := Stage.fetchFeed :: Stage.writeStyles ::
              (if env.alertsReady then [Stage.notifyFailureMail] else []) }
        | Except.ok _ =>
          let total := (report.categories.map (fun c => c.items.length)).sum
          { outcome := Outcome.published env.dateArg total
            exitCode := 0
            trace := Stage.fetchFeed :: Stage.writeStyles :: Stage.buildDailyPage ::
              ((if env.exportOk then [Stage.exportPdf] else []) ++
                (if env.alertsReady then [Stage.notifySuccessMail] else [])) }

example : parse_url_date "https://x.org/issues/24-03-10-daily" = some "2024-03-10" := by decide
example : parse_url_date "https://x.org/issues/2024-03-10-daily" = some "2024-03-10" := by decide
example : parse_url_date "https://x.org/issues/245-01-05-x" = none := by decide
example : strptimeDate "2024-03-10" = some ⟨2024, 3, 10⟩ := by decide
example : strptimeDate "2024-13-10" = none := by decide
example : strptimeDate "2024-02-30" = none := by decide
example : strptimeDate "2024-2-29" = some ⟨2024, 2, 29⟩ := by decide
example : strptimeDate "2023-02-29" = none := by decide
example : strptimeDate "2024/03/10" = none := by decide
example : unescape3 "&amp;lt;b&gt;" = "&lt;b>" := by decide
example : unescape3 "&lt;p&gt;a &amp; b&lt;/p&gt;" = "<p>a & b</p>" := by decide

/-- The scan loop returns the first entry, in feed order, satisfying
either matching rule. -/
theorem locate_eq_find (td : YMD) (t : String) (es : List FeedEntry) :
    locateEntry td t es = Option.map format_item (es.find? (entry_matches td t)) := by
  induction es with
  | nil => rfl
  | cons e rest ih =>
    cases h1 : ts_match td e with
    | true =>
      simp [locateEntry, h1, entry_matches, List.find?_cons_of_pos]
    | false =>
      cases h2 : url_match t e with
      | true =>
        simp [locateEntry, h1, h2, entry_matches, List.find?_cons_of_pos]
      | false =>
        have hm : entry_matches td t e = false := by
          simp [entry_matches, h1, h2]
        simp [locateEntry, h1, h2, List.find?_cons_of_neg, hm, ih]

/-- `find?` over a list whose whole front fails the predicate returns the
first later element that satisfies it. -/
theorem find?_append_first {α : Type} {p : α → Bool} (pre post : List α) (e : α)
    (hpre : ∀ x ∈ pre, p x = false) (he : p e = true) :
    (pre ++ e :: post).find? p = some e := by
  induction pre with
  | nil => simp [List.find?_cons_of_pos, he]
  | cons a l ih =>
    have ha : p a = false := hpre a (by simp)
    have : (l ++ e :: post).find? p = some e :=
      ih (fun x hx => hpre x (by simp [hx]))
    simp [List.find?_cons_of_neg, ha, this]

/-- C2: for every valid `YYYY-MM-DD` target date and feed snapshot
containing an entry whose link encodes that date under the
`/issues/YY-MM-DD-` or `/issues/YYYY-MM-DD-` pattern (with `20YY`
expansion), and which no earlier entry matches by either rule,
`fetch_by_day` returns that entry's canonical record, with no assumption
on the entry's publish timestamp; moreover the two-digit segment
`24-01-05` resolves to `2024-01-05`. -/
theorem c2_url_date_locates_entry (t : String) (td : YMD) (pre post : List FeedEntry)
    (e : FeedEntry) (l : String)
    (hv : strptimeDate t = some td)
    (hl : e.link = some l)
    (hu : parse_url_date l = some t)
    (hpre : ∀ x ∈ pre, entry_matches td t x = false) :
    fetch_by_day t (pre ++ e :: post) = Except.ok (some (format_item e)) ∧
    parse_url_date "/issues/24-01-05-sample" = some "2024-01-05" := by
  constructor
  · have he : entry_matches td t e = true := by
      simp [entry_matches, url_match, hl, hu]
    unfold fetch_by_day
    rw [hv]
    show Except.ok (locateEntry td t (pre ++ e :: post)) =
      Except.ok (some (format_item e))
    rw [locate_eq_find, find?_append_first pre post e hpre he]
    rfl
  · decide

/-- Scenario A entry: link with a two-digit-year date segment and no
timestamp. -/
def eScenA : FeedEntry := { link := some "https://x.org/issues/24-03-10-daily" }

/-- Witness for C2 at Scenario A of the spec. -/
theorem c2_witness :
    fetch_by_day "2024-03-10" [eScenA] = Except.ok (some (format_item eScenA)) ∧
    parse_url_date "/issues/24-01-05-sample" = some "2024-01-05" :=
  c2_url_date_locates_entry "2024-03-10" ⟨2024, 3, 10⟩ [] [] eScenA
    "https://x.org/issues/24-03-10-daily" (by decide) rfl (by decide)
    (by intro x hx; cases hx)

/-- C3: `fetch_by_day` scans strictly in feed order and returns the first
entry satisfying either rule (`entry_matches` tests the timestamp rule
before the URL rule); in particular an earlier entry matching only by URL
pattern wins over a later entry matching by timestamp. -/
theorem c3_feed_order_first_match (t : String) (td : YMD)
    (hv : strptimeDate t = some td) :
    (∀ entries : List FeedEntry,
      fetch_by_day t entries =
        Except.ok (Option.map format_item (entries.find? (entry_matches td t)))) ∧
    (∀ e1 e2 l1, e1.link = some l1 → parse_url_date l1 = some t →
      ts_match td e1 = false → ts_match td e2 = true →
      fetch_by_day t [e1, e2] = Except.ok (some (format_item e1))) := by
  constructor
  · intro entries
    unfold fetch_by_day
    rw [hv]
    show Except.ok (locateEntry td t entries) = _
    rw [locate_eq_find]
  · intro e1 e2 l1 hl hu h1 _
    unfold fetch_by_day
    rw [hv]
    show Except.ok (locateEntry td t [e1, e2]) = _
    simp [locateEntry, h1, url_match, hl, hu]

/-- Earlier entry matching only by URL pattern. -/
def eUrlOnly : FeedEntry :=
  { link := some "https://x.org/issues/24-03-10-daily"
    published_parsed := some ⟨2024, 3, 9, 23, 0, 0⟩ }

/-- Later entry matching by timestamp. -/
def eTsLater : FeedEntry :=
  { title := some "later"
    published_parsed := some ⟨2024, 3, 10, 1, 0, 0⟩ }

/-- Witness for C3: the earlier URL-only match beats the later timestamp
match. -/
theorem c3_witness :
    fetch_by_day "2024-03-10" [eUrlOnly, eTsLater] =
      Except.ok (some (format_item eUrlOnly)) :=
  (c3_feed_order_first_match "2024-03-10" ⟨2024, 3, 10⟩ (by decide)).2
    eUrlOnly eTsLater "https://x.org/issues/24-03-10-daily" rfl (by decide)
    (by decide) (by decide)

/-- C4: content precedence in the canonical record: a non-empty structured
content list wins over the summary field, which wins over the description
field; the chosen string is unescaped by the three fixed sequential
replacements; and with both a structured body and a summary present, the
record's content is the unescaped body, not the summary.  The last
conjunct shows the unescape is the fixed-order single pass, not a general
entity decoder. -/
theorem c4_content_precedence :
    (∀ (e : FeedEntry) (c : ContentItem) (rest : List ContentItem),
      e.content = c :: rest →
      (format_item e).content = unescape3 (c.value.getD "")) ∧
    (∀ (e : FeedEntry) (s : String), e.content = [] → e.summary = some s →
      (format_item e).content = unescape3 s) ∧
    (∀ e : FeedEntry, e.content = [] → e.summary = none →
      (format_item e).content = unescape3 (e.description.getD "")) ∧
    (∀ (e : FeedEntry) (c : ContentItem) (rest : List ContentItem) (s : String),
      e.content = c :: rest → e.summary = some s →
      unescape3 (c.value.getD "") ≠ unescape3 s →
      (format_item e).content ≠ unescape3 s) ∧
    unescape3 "&amp;lt;b&gt;" = "&lt;b>" := by
  refine ⟨?_, ?_, ?_, ?_, by decide⟩
  · intro e c rest h
    simp [format_item, h]
  · intro e s h hs
    simp [format_item, h, hs]
  · intro e h hs
    simp [format_item, h, hs]
  · intro e c rest s h hs hne
    have hc : (format_item e).content = unescape3 (c.value.getD "") := by
      simp [format_item, h]
    rw [hc]
    exact hne

/-- Entry carrying both a structured content body and a summary. -/
def eBoth : FeedEntry :=
  { content := [{ value := some "&lt;b&gt;breakthrough&lt;/b&gt;" }]
    summary := some "plain summary" }

/-- Witness for C4: the structured body wins and is unescaped. -/
theorem c4_witness :
    (format_item eBoth).content =
      unescape3 ((some "&lt;b&gt;breakthrough&lt;/b&gt;" : Option String).getD "") :=
  c4_content_precedence.1 eBoth
    { value := some "&lt;b&gt;breakthrough&lt;/b&gt;" } [] rfl

/-- Timestamp-matched entry with no id, guid or link: its record's guid is
empty. -/
def eNoId : FeedEntry := { published_parsed := some ⟨2024, 1, 5, 8, 30, 0⟩ }

/-- C5 counterexample: a canonical record produced from a matched entry
whose identifier is the empty string, refuting the claimed non-emptiness
invariant. -/
theorem c5_counterexample :
    fetch_by_day "2024-01-05" [eNoId] = Except.ok (some (format_item eNoId)) ∧
    (format_item eNoId).guid = "" := by
  decide

/-- C5 (amended): the record's content is always the (total, string-valued)
unescape of the chosen field, and the identifier follows the fallback
chain entry id, then entry guid, then entry link, defaulting to the empty
string when all three are absent — so it can be empty. -/
theorem c5_guid_fallback_chain :
    (∀ (e : FeedEntry) (v : String), e.id = some v → (format_item e).guid = v) ∧
    (∀ (e : FeedEntry) (v : String), e.id = none → e.guid = some v →
      (format_item e).guid = v) ∧
    (∀ (e : FeedEntry) (v : String), e.id = none → e.guid = none →
      e.link = some v → (format_item e).guid = v) ∧
    (∀ e : FeedEntry, e.id = none → e.guid = none → e.link = none →
      (format_item e).guid = "") := by
  refine ⟨?_, ?_, ?_, ?_⟩
  · intro e v h
    simp [format_item, h]
  · intro e v h hg
    simp [format_item, h, hg]
  · intro e v h hg hl
    simp [format_item, h, hg, hl]
  · intro e h hg hl
    simp [format_item, h, hg, hl]

/-- Witness for the amended C5 at a concrete entry with an explicit id. -/
theorem c5_witness :
    (format_item { id := some "tag:x,2024:1" : FeedEntry }).guid = "tag:x,2024:1" :=
  c5_guid_fallback_chain.1 { id := some "tag:x,2024:1" } "tag:x,2024:1" rfl

/-- C9: `get_latest_timestamp` returns the URL date of the first feed
entry, falling back to the date of its parsed timestamp, and returns
`none` on an empty feed or when the first entry (hence, in particular,
when no entry) yields a date. -/
theorem c9_latest_available_date :
    get_latest_timestamp [] = none ∧
    (∀ (e : FeedEntry) (rest : List FeedEntry) (d : String),
      url_date_of e = some d → get_latest_timestamp (e :: rest) = some d) ∧
    (∀ (e : FeedEntry) (rest : List FeedEntry) (p : PubTime),
      url_date_of e = none → e.published_parsed = some p →
      get_latest_timestamp (e :: rest) = some (fmtYMD p.year p.month p.day)) ∧
    (∀ (e : FeedEntry) (rest : List FeedEntry),
      url_date_of e = none → e.published_parsed = none →
      get_latest_timestamp (e :: rest) = none) := by
  refine ⟨rfl, ?_, ?_, ?_⟩
  · intro e rest d h
    simp [get_latest_timestamp, h]
  · intro e rest p h hp
    simp [get_latest_timestamp, h, hp]
  · intro e rest h hp
    simp [get_latest_timestamp, h, hp]

/-- Witness for C9: the first entry's URL date wins over its timestamp. -/
theorem c9_witness :
    get_latest_timestamp [eUrlOnly, eTsLater] = some "2024-03-10" :=
  c9_latest_available_date.2.1 eUrlOnly [eTsLater] "2024-03-10" (by decide)

/-- C10: a classification whose `summary` key is present and maps to an
empty list makes `sync_index` raise reading the first highlight, and the
exception propagates through `build_daily`, so the publish stage crashes
instead of returning a report. -/
theorem c10_empty_highlights_crash (data : Classification)
    (day lang nowTs nowDate : String) (log : List LogEntry)
    (h : data.summary = some []) :
    sync_index day data lang nowTs log =
      Except.error "IndexError: list index out of range" ∧
    build_daily data nowDate nowTs log =
      Except.error "IndexError: list index out of range" := by
  have hf : firstSummary data = Except.error "IndexError: list index out of range" := by
    simp [firstSummary, h]
  constructor
  · simp [sync_index, hf]
  · simp [build_daily, sync_index, hf]

/-- Success-status classification with zero highlights. -/
def dNoHighlights : Classification :=
  { status := "success", date := some "2024-01-05", summary := some [] }

/-- Witness for C10 at a concrete success-status classification. -/
theorem c10_witness :
    sync_index "2024-01-05" dNoHighlights "zh" "T0" [] =
      Except.error "IndexError: list index out of range" ∧
    build_daily dNoHighlights "2024-01-06" "T0" [] =
      Except.error "IndexError: list index out of range" :=
  c10_empty_highlights_crash dNoHighlights "2024-01-05" "zh" "T0" "2024-01-06" [] rfl

/-- Truncation to `n` characters yields a string of at most `n`
characters. -/
theorem truncate_length_le (n : Nat) (s : String) : (truncate n s).length ≤ n := by
  show (s.toList.take n).length ≤ n
  simp [List.length_take]

/-- C8: running the log merge twice for the same date leaves exactly one
entry for that date, carrying the second run's data, inserted at the
front, with its summary truncated to 120 characters, and the log capped
at 50 entries. -/
theorem c8_log_merge_idempotent (day : String) (d1 d2 : Classification)
    (l1 l2 t1 t2 s2 : String) (log log1 log2 : List LogEntry)
    (h1 : sync_index day d1 l1 t1 log = Except.ok log1)
    (h2 : sync_index day d2 l2 t2 log1 = Except.ok log2)
    (hf2 : firstSummary d2 = Except.ok s2) :
    log2.head? = some (mkLogEntry day s2 l2 t2) ∧
    log2.filter (fun e => e.date = day) = [mkLogEntry day s2 l2 t2] ∧
    (mkLogEntry day s2 l2 t2).summary.length ≤ 120 ∧
    log2.length ≤ 50 := by
  unfold sync_index at h2
  rw [hf2] at h2
  set E2 : LogEntry := mkLogEntry day s2 l2 t2 with hE2
  have hlog2 : log2 = (E2 :: log1.filter (fun e => e.date ≠ day)).take 50 :=
    (Except.ok.inj h2).symm
  have hdrop : ∀ x ∈ (log1.filter (fun e => e.date ≠ day)).take 49, ¬ x.date = day := by
    intro x hx
    have hx2 : x ∈ log1.filter (fun e => e.date ≠ day) := List.take_subset 49 _ hx
    have := (List.mem_filter.1 hx2).2
    simpa using this
  have htake : log2 = E2 :: (log1.filter (fun e => e.date ≠ day)).take 49 := by
    rw [hlog2, List.take_succ_cons]
  refine ⟨?_, ?_, truncate_length_le 120 s2, ?_⟩
  · rw [htake]
    rfl
  · rw [htake]
    have hE2day : E2.date = day := rfl
    simp only [List.filter_cons]
    rw [hE2day]
    simp only [decide_eq_true_eq, if_pos rfl]
    have : ((log1.filter (fun e => e.date ≠ day)).take 49).filter
        (fun e => e.date = day) = [] := by
      rw [List.filter_eq_nil_iff]
      intro a ha
      simpa using hdrop a ha
    rw [this]
    simp
  · rw [hlog2]
    exact List.length_take_le 50 _

/-- First-run classification for the C8 witness. -/
def dRun1 : Classification := { summary := some ["first pass highlight"] }

/-- Second-run classification for the C8 witness. -/
def dRun2 : Classification := { summary := some ["second pass highlight"] }

/-- Witness for C8 on a concrete log that already holds an entry for the
target date and one for another date. -/
theorem c8_witness :
    ([mkLogEntry "2024-01-05" "second pass highlight" "en" "T2",
      ⟨"2024-01-04", "2024-01-04-zh.html", "old", "zh", "T"⟩] :
        List LogEntry).head? =
      some (mkLogEntry "2024-01-05" "second pass highlight" "en" "T2") ∧
    ([mkLogEntry "2024-01-05" "second pass highlight" "en" "T2",
      ⟨"2024-01-04", "2024-01-04-zh.html", "old", "zh", "T"⟩] :
        List LogEntry).filter (fun e => e.date = "2024-01-05") =
      [mkLogEntry "2024-01-05" "second pass highlight" "en" "T2"] ∧
    (mkLogEntry "2024-01-05" "second pass highlight" "en" "T2").summary.length ≤ 120 ∧
    ([mkLogEntry "2024-01-05" "second pass highlight" "en" "T2",
      ⟨"2024-01-04", "2024-01-04-zh.html", "old", "zh", "T"⟩] :
        List LogEntry).length ≤ 50 :=
  c8_log_merge_idempotent "2024-01-05" dRun1 dRun2 "zh" "en" "T1" "T2"
    "second pass highlight"
    [⟨"2024-01-05", "stale.html", "stale", "zh", "T0"⟩,
     ⟨"2024-01-04", "2024-01-04-zh.html", "old", "zh", "T"⟩]
    [mkLogEntry "2024-01-05" "first pass highlight" "zh" "T1",
     ⟨"2024-01-04", "2024-01-04-zh.html", "old", "zh", "T"⟩]
    [mkLogEntry "2024-01-05" "second pass highlight" "en" "T2",
     ⟨"2024-01-04", "2024-01-04-zh.html", "old", "zh", "T"⟩]
    (by decide) (by decide) (by decide)

/-- Feed entry used by the concrete pipeline environments: URL-dated link
and a summary body. -/
def eC1 : FeedEntry :=
  { link := some "https://x.org/issues/24-01-05-daily"
    summary := some "Big news" }

/-- Environment in which the oracle call raises a timeout. -/
def envC1 : PipelineEnv :=
  { dateArg := "2024-01-05"
    language := "zh"
    fetchResult := Except.ok [eC1]
    oracleResult := Except.error "Request timed out."
    alertsReady := false
    exportOk := true
    nowDate := "2024-01-06"
    nowTs := "T0"
    log := [] }

/-- C1 counterexample: the oracle call raises a timeout, yet the run does
not produce the Failed outcome — the exception is caught inside the
analyze stage, an emergency fallback classification with status success
is substituted, and the run terminates as Published with exit code 0. -/
theorem c1_counterexample :
    envC1.oracleResult = Except.error "Request timed out." ∧
    run_pipeline envC1 =
      { outcome := Outcome.published "2024-01-05" 1
        exitCode := 0
        trace := [Stage.fetchFeed, Stage.writeStyles, Stage.buildDailyPage,
          Stage.exportPdf] } := by
  constructor
  · rfl
  · decide

/-- C1 (amended): whenever the oracle call raises, `process_news` catches
the exception and returns the emergency fallback (status success, one
category with one item), so the run reaches the Published outcome with
item count 1 and exit code 0 instead of the Failed outcome. -/
theorem c1_oracle_exception_fallback (env : PipelineEnv) (feed : List FeedEntry)
    (raw : CanonRecord) (msg : String)
    (hf : env.fetchResult = Except.ok feed)
    (hl : fetch_by_day env.dateArg feed = Except.ok (some raw))
    (hc : raw.content ≠ "")
    (ho : env.oracleResult = Except.error msg) :
    (run_pipeline env).outcome = Outcome.published env.dateArg 1 ∧
    (run_pipeline env).exitCode = 0 := by
  have hrep : process_news (some raw) env.oracleResult env.dateArg env.language =
      emergency_fallback raw env.dateArg := by
    simp [process_news, hc, ho]
  simp only [run_pipeline, hf, hl, hrep]
  exact ⟨rfl, rfl⟩

/-- Witness for the amended C1 at the concrete timeout environment. -/
theorem c1_witness :
    (run_pipeline envC1).outcome = Outcome.published "2024-01-05" 1 ∧
    (run_pipeline envC1).exitCode = 0 :=
  c1_oracle_exception_fallback envC1 [eC1] (format_item eC1) "Request timed out."
    rfl (by decide) (by decide) rfl

/-- C6: a NotFound resolution and an oracle classification with status
empty both take the Empty exit: exit code 0, no `build_daily` step in the
trace, and a notification attempt whenever the sink is configured. -/
theorem c6_empty_exit (env : PipelineEnv) (feed : List FeedEntry) :
    (env.fetchResult = Except.ok feed →
      fetch_by_day env.dateArg feed = Except.ok none →
      (run_pipeline env).outcome =
        Outcome.emptyO env.dateArg "RSS feed returned no entries for this date." ∧
      (run_pipeline env).exitCode = 0 ∧
      Stage.buildDailyPage ∉ (run_pipeline env).trace ∧
      (env.alertsReady = true → Stage.notifyEmptyMail ∈ (run_pipeline env).trace)) ∧
    (∀ (raw : CanonRecord) (c : Classification),
      env.fetchResult = Except.ok feed →
      fetch_by_day env.dateArg feed = Except.ok (some raw) →
      raw.content ≠ "" →
      env.oracleResult = Except.ok c →
      c.status = "empty" →
      (run_pipeline env).outcome =
        Outcome.emptyO env.dateArg (c.reason.getD "AI analysis empty") ∧
      (run_pipeline env).exitCode = 0 ∧
      Stage.buildDailyPage ∉ (run_pipeline env).trace ∧
      (env.alertsReady = true → Stage.notifyEmptyMail ∈ (run_pipeline env).trace)) := by
  constructor
  · intro hf hl
    simp only [run_pipeline, hf, hl]
    refine ⟨by trivial, by trivial, ?_, ?_⟩
    · cases h : env.alertsReady <;> simp [h]
    · intro h
      simp [h]
  · intro raw c hf hl hc ho hs
    have hrep : process_news (some raw) env.oracleResult env.dateArg env.language = c := by
      simp [process_news, hc, ho]
    simp only [run_pipeline, hf, hl, hrep, hs]
    refine ⟨by trivial, by trivial, ?_, ?_⟩
    · cases h : env.alertsReady <;> simp [h]
    · intro h
      simp [h]

/-- Environment whose feed has no entry for the target date. -/
def envC6a : PipelineEnv :=
  { dateArg := "2099-01-01"
    language := "zh"
    fetchResult := Except.ok [eC1]
    oracleResult := Except.error "unused"
    alertsReady := true
    exportOk := true
    nowDate := "2099-01-02"
    nowTs := "T0"
    log := [] }

/-- Oracle answer with status empty. -/
def cEmptyStatus : Classification :=
  { status := "empty"
    date := some "2024-01-05"
    summary := some []
    reason := some "AI analysis empty" }

/-- Environment whose oracle classifies the day as empty. -/
def envC6b : PipelineEnv :=
  { dateArg := "2024-01-05"
    language := "zh"
    fetchResult := Except.ok [eC1]
    oracleResult := Except.ok cEmptyStatus
    alertsReady := true
    exportOk := true
    nowDate := "2024-01-06"
    nowTs := "T0"
    log := [] }

/-- Witness for C6 at a NotFound run and at an oracle-empty run. -/
theorem c6_witness :
    ((run_pipeline envC6a).outcome =
        Outcome.emptyO "2099-01-01" "RSS feed returned no entries for this date." ∧
      (run_pipeline envC6a).exitCode = 0 ∧
      Stage.buildDailyPage ∉ (run_pipeline envC6a).trace ∧
      (envC6a.alertsReady = true →
        Stage.notifyEmptyMail ∈ (run_pipeline envC6a).trace)) ∧
    ((run_pipeline envC6b).outcome =
        Outcome.emptyO "2024-01-05" (cEmptyStatus.reason.getD "AI analysis empty") ∧
      (run_pipeline envC6b).exitCode = 0 ∧
      Stage.buildDailyPage ∉ (run_pipeline envC6b).trace ∧
      (envC6b.alertsReady = true →
        Stage.notifyEmptyMail ∈ (run_pipeline envC6b).trace)) :=
  ⟨(c6_empty_exit envC6a [eC1]).1 rfl (by decide),
   (c6_empty_exit envC6b [eC1]).2 (format_item eC1) cEmptyStatus rfl (by decide)
     (by decide) rfl rfl⟩

/-- Environment with a malformed user-supplied date. -/
def envC7 : PipelineEnv :=
  { dateArg := "2024/01/05"
    language := "zh"
    fetchResult := Except.ok [eC1]
    oracleResult := Except.error "unused"
    alertsReady := false
    exportOk := true
    nowDate := "2024-01-06"
    nowTs := "T0"
    log := [] }

/-- C7 counterexample: with a malformed `--date`, the run is not rejected
before the stages run — the feed fetch completes first (it is in the
trace), and only then does the date check inside `fetch_by_day` raise,
surfacing through the generic Failure exit. -/
theorem c7_counterexample :
    strptimeDate "2024/01/05" = none ∧
    run_pipeline envC7 =
      { outcome := Outcome.failed "2024/01/05"
          "Date format mismatch: 2024/01/05 (use YYYY-MM-DD)"
        exitCode := 1
        trace := [Stage.fetchFeed] } := by
  constructor
  · decide
  · decide

/-- C7 (amended): a `--date` string rejected by strptime is only detected
inside `fetch_by_day` during the locate stage, after the feed fetch has
completed; the `ValueError` propagates to the Failed outcome with exit
code 1. -/
theorem c7_late_date_validation (env : PipelineEnv) (feed : List FeedEntry)
    (hf : env.fetchResult = Except.ok feed)
    (hd : strptimeDate env.dateArg = none) :
    (run_pipeline env).outcome = Outcome.failed env.dateArg
      ("Date format mismatch: " ++ env.dateArg ++ " (use YYYY-MM-DD)") ∧
    (run_pipeline env).exitCode = 1 ∧
    Stage.fetchFeed ∈ (run_pipeline env).trace := by
  simp only [run_pipeline, hf, fetch_by_day, hd]
  refine ⟨by trivial, by trivial, ?_⟩
  simp

/-- Witness for the amended C7 at the malformed-date environment. -/
theorem c7_witness :
    (run_pipeline envC7).outcome = Outcome.failed "2024/01/05"
      ("Date format mismatch: " ++ "2024/01/05" ++ " (use YYYY-MM-DD)") ∧
    (run_pipeline envC7).exitCode = 1 ∧
    Stage.fetchFeed ∈ (run_pipeline envC7).trace :=
  c7_late_date_validation envC7 [eC1] rfl (by decide)
